import Mathlib

/-!
Verification of the offline-reconciliation subsystem of the
St-Joseph-Academy Notice API.

The development shallowly embeds:
* the server-side `POST /api/-kind-/sync-local` bulk-upsert handlers
  (`src/routes/notices.js` lines 111-191, `src/routes/reports.js` lines
  288-366, the media route file lines 110-189) — the three handlers are
  textually identical up to the MatchKey fields and message strings, so the
  embedding is parameterized by a `SyncCfg`;
* the client-side `AuthSyncService` (`src/authSyncService.js`): backoff
  computation, authentication, connectivity check, stop, and the per-kind
  local-snapshot pipelines.

Machine state that the JavaScript mutates (the MongoDB collection, the
service's fields, the set of pending timers) is passed explicitly.
-/

/-! ## Server-side sync-local handler (generic over the entity kind) -/

/-- An entry of the `results.success` list pushed by the handler loop:
`(id: ..., status: 'created' or 'skipped', message: ...)`. -/
structure SuccessEntry where
  id : Nat
  status : String
  message : String
deriving Repr, DecidableEq

/-- An entry of the `results.failed` list: the record's `title` field and
the caught error's message. -/
structure FailedEntry where
  title : String
  error : String
deriving Repr, DecidableEq

/-- The `results` accumulator of the handler: `success: [], failed: []`. -/
structure SyncResults where
  success : List SuccessEntry
  failed : List FailedEntry
deriving Repr, DecidableEq

/-- The `summary` object of the handler's 200 response. -/
structure Summary where
  total : Nat
  created : Nat
  skipped : Nat
  failed : Nat
deriving Repr, DecidableEq

/-- The remote MongoDB collection for one entity kind: saved documents with
their assigned `_id` (modelled as consecutive naturals) and the next fresh
id.  `Model.save()` appends a document; nothing in the embedded routes
removes one. -/
structure Store (ρ : Type) where
  docs : List (Nat × ρ)
  nextId : Nat
deriving Repr, DecidableEq

/-- The per-kind parameters of the shared sync-local handler code:
the MatchKey (the `$and` clause of the `findOne` call), the identifying
title field used in `failed` entries, the validation performed by
`new Model(record)` / `save()` (returns `some message` when construction or
validation throws), and the kind's literal message strings. -/
structure SyncCfg (ρ : Type) (κ : Type) where
  matchKey : ρ → κ
  titleOf : ρ → String
  validate : ρ → Option String
  createdMsg : String
  skippedMsg : String
  emptyMsg : String

/-- `Model.findOne(-MatchKey $and clause-)`: the first stored document whose
MatchKey fields all equal the submitted record's. -/
def findOne {ρ κ : Type} [DecidableEq κ] (cfg : SyncCfg ρ κ) (st : Store ρ)
    (r : ρ) : Option (Nat × ρ) :=
  st.docs.find? (fun d => decide (cfg.matchKey d.2 = cfg.matchKey r))

/-- One iteration of the handler's `for (const record of records)` loop:
if a MatchKey match exists, push a `skipped` success entry (and `continue`
without saving); otherwise construct and save the record — on validation
failure push a `failed` entry with the record's title and the error reason,
on success save it and push a `created` entry with the new id. -/
def syncStep {ρ κ : Type} [DecidableEq κ] (cfg : SyncCfg ρ κ) (st : Store ρ)
    (r : ρ) : Store ρ × (SuccessEntry ⊕ FailedEntry) :=
  match findOne cfg st r with
  | some d => (st, Sum.inl ⟨d.1, "skipped", cfg.skippedMsg⟩)
  | none =>
    match cfg.validate r with
    | some err => (st, Sum.inr ⟨cfg.titleOf r, err⟩)
    | none =>
        (⟨st.docs ++ [(st.nextId, r)], st.nextId + 1⟩,
         Sum.inl ⟨st.nextId, "created", cfg.createdMsg⟩)

/-- The whole handler loop over the submitted batch, threading the store
(each saved record is visible to the `findOne` of every later record) and
collecting the `success` and `failed` lists in submission order. -/
def runSync {ρ κ : Type} [DecidableEq κ] (cfg : SyncCfg ρ κ) (st : Store ρ) :
    List ρ → Store ρ × SyncResults
  | [] => (st, ⟨[], []⟩)
  | r :: rest =>
    let step := syncStep cfg st r
    let tail := runSync cfg step.1 rest
    match step.2 with
    | Sum.inl s => (tail.1, ⟨s :: tail.2.success, tail.2.failed⟩)
    | Sum.inr f => (tail.1, ⟨tail.2.success, f :: tail.2.failed⟩)

/-- The `summary` the handler computes for its 200 response:
`total` is the batch length, `created` and `skipped` count the success
entries by status, `failed` is the length of the failed list. -/
def mkSummary (batchLen : Nat) (res : SyncResults) : Summary :=
  ⟨batchLen,
   (res.success.filter (fun e => e.status == "created")).length,
   (res.success.filter (fun e => e.status == "skipped")).length,
   res.failed.length⟩

/-- The handler's HTTP response: a 404/500-style error envelope
(`success: false`) or the 200 envelope carrying the results and summary. -/
inductive SyncResponse where
  | err (httpStatus : Nat) (message : String)
  | ok (success : List SuccessEntry) (failed : List FailedEntry)
       (summary : Summary)
deriving Repr, DecidableEq

/-- The summary of a 200 response, `none` for an error response. -/
def summaryOf : SyncResponse → Option Summary
  | SyncResponse.err _ _ => none
  | SyncResponse.ok _ _ s => some s

/-- The full `POST /sync-local` handler: an empty (or absent) batch is
answered with a 404 error envelope before the loop; otherwise the loop runs
and a 200 response reports the per-record results and the summary. -/
def syncLocalRoute {ρ κ : Type} [DecidableEq κ] (cfg : SyncCfg ρ κ)
    (st : Store ρ) (batch : List ρ) : Store ρ × SyncResponse :=
  if batch.length = 0 then (st, SyncResponse.err 404 cfg.emptyMsg)
  else
    let out := runSync cfg st batch
    (out.1, SyncResponse.ok out.2.success out.2.failed
      (mkSummary batch.length out.2))

/-! ## Concrete instantiation: the notices kind

`src/routes/notices.js` matches on title, organisation name, event start
and end date; documents are validated against `src/models/Notice.js`
(required string fields, enum-constrained type/priority/status). -/

/-- The `noticeInfo` subdocument fields used by the route and schema. -/
structure NoticeInfo where
  organisationName : String
  organisationAddress : String
  noticeDetails : List String
  noticeType : String
deriving Repr, DecidableEq

/-- The `eventSchedule` subdocument fields used by the route and schema. -/
structure EventSchedule where
  dateCreated : String
  timeCreated : String
  dateFromStart : String
  dateToEnd : String
deriving Repr, DecidableEq

/-- A notice record as submitted to the sync-local endpoint. -/
structure NoticeRec where
  title : String
  noticeInfo : NoticeInfo
  eventSchedule : EventSchedule
  priority : String
  status : String
deriving Repr, DecidableEq

/-- `NoticeCategory` enum values of `src/models/Notice.js`. -/
def NoticeCategoryValues : List String :=
  ["ACADEMIC", "EXTRACURRICULAR", "ADMINISTRATIVE", "SPORTS", "CULTURAL",
   "EXAM", "HOLIDAY", "GENERAL"]

/-- `NoticePriority` enum values of `src/models/Notice.js`. -/
def NoticePriorityValues : List String := ["LOW", "NORMAL", "HIGH", "URGENT"]

/-- `NoticeStatus` enum values of `src/models/Notice.js`. -/
def NoticeStatusValues : List String :=
  ["DRAFT", "ACTIVE", "ARCHIVED", "CANCELLED"]

/-- Mongoose validation of the Notice schema on the modelled fields:
required string paths reject an absent/empty value and the enum-constrained
paths reject values outside their enum (`src/models/Notice.js`). -/
def noticeValidate (n : NoticeRec) : Option String :=
  if n.title = "" then some "Notice validation failed: title is required"
  else if n.noticeInfo.organisationName = "" then
    some "Notice validation failed: organisationName is required"
  else if n.noticeInfo.organisationAddress = "" then
    some "Notice validation failed: organisationAddress is required"
  else if ¬ NoticeCategoryValues.contains n.noticeInfo.noticeType then
    some "Notice validation failed: noticeType is not a valid enum value"
  else if n.eventSchedule.dateFromStart = "" then
    some "Notice validation failed: dateFromStart is required"
  else if n.eventSchedule.dateToEnd = "" then
    some "Notice validation failed: dateToEnd is required"
  else if ¬ NoticePriorityValues.contains n.priority then
    some "Notice validation failed: priority is not a valid enum value"
  else if ¬ NoticeStatusValues.contains n.status then
    some "Notice validation failed: status is not a valid enum value"
  else none

/-- The notices instantiation of the shared handler: MatchKey is
(title, organisationName, dateFromStart, dateToEnd) — the `$and` clause at
`src/routes/notices.js` lines 131-138 — with the route's literal
messages. -/
def noticesCfg : SyncCfg NoticeRec (String × String × String × String) :=
  { matchKey := fun n =>
      (n.title, n.noticeInfo.organisationName,
       n.eventSchedule.dateFromStart, n.eventSchedule.dateToEnd),
    titleOf := fun n => n.title,
    validate := noticeValidate,
    createdMsg := "New notice created",
    skippedMsg := "Notice already exists",
    emptyMsg := "No notices found to sync" }

/-- A well-formed sample notice (passes `noticeValidate`). -/
def sampleNotice : NoticeRec :=
  { title := "Annual Day",
    noticeInfo :=
      { organisationName := "St Joseph Academy",
        organisationAddress := "Main Street",
        noticeDetails := ["All students must attend"],
        noticeType := "GENERAL" },
    eventSchedule :=
      { dateCreated := "2025-01-01", timeCreated := "09:00:00",
        dateFromStart := "2025-02-01", dateToEnd := "2025-02-02" },
    priority := "NORMAL",
    status := "ACTIVE" }

/-- A second well-formed sample notice with a different MatchKey. -/
def sampleNotice2 : NoticeRec :=
  { sampleNotice with title := "Sports Meet" }

/-- A third well-formed sample notice with a different MatchKey. -/
def sampleNotice3 : NoticeRec :=
  { sampleNotice with title := "Exam Schedule" }

/-- A notice that fails schema validation (status outside its enum). -/
def badNotice : NoticeRec :=
  { sampleNotice with title := "Broken Notice", status := "BOGUS" }

example : noticeValidate sampleNotice = none := by decide
example :
    noticeValidate badNotice =
      some "Notice validation failed: status is not a valid enum value" := by
  decide

/-! ## Client-side AuthSyncService (`src/authSyncService.js`)

The service's mutable fields and the environment's pending timers are made
an explicit state.  Remote interactions (the login POST, the health GET)
are supplied as parameters describing the outcome the network delivered. -/

namespace AuthSyncService

/-- The configuration fields of the constructor that the embedded methods
read (`retryDelay` is the backoff base, default 60000 ms; `maxRetries`
default 5; `checkInterval` default 30000 ms). -/
structure SvcConfig where
  retryDelay : Nat
  maxRetries : Nat
  checkInterval : Nat
deriving Repr, DecidableEq

/-- The service's mutable fields, plus `intervalArmed` (whether the
`setInterval` handle stored in `this.syncInterval` is live) and
`pendingBackoff` — the delays of backoff `setTimeout` callbacks the
environment still holds.  The source discards the `setTimeout` return value
(line 134), so no service field refers to a pending backoff timer. -/
structure SvcState where
  accessToken : Option String
  isOnline : Bool
  retryCount : Nat
  intervalArmed : Bool
  pendingBackoff : List Nat
deriving Repr, DecidableEq

/-- Observable actions a call performs, in order: an authentication
attempt (the login POST), a completed sync pass over all kinds, scheduling
a backoff retry with a delay, or reporting the max-retries error. -/
inductive Effect where
  | authAttempt
  | syncPass
  | backoffScheduled (delay : Nat)
  | maxRetriesReported
deriving Repr, DecidableEq

/-- What the network delivered for the `GET /api/health` probe:
an HTTP response with some status, or a transport-level failure
(timeout, DNS, connection refused). -/
inductive ProbeOutcome where
  | response (status : Nat)
  | transportFailure
deriving Repr, DecidableEq

/-- `getRetryDelay()` (source lines 37-42):
`Math.min(config.retryDelay * Math.pow(2, retryCount), 300000)`. -/
def getRetryDelay (cfg : SvcConfig) (retryCount : Nat) : Nat :=
  min (cfg.retryDelay * 2 ^ retryCount) 300000

/-- `authenticate()` (source lines 44-65).  `loginResult` is what the
login POST produced: `some token` when the remote accepted the credentials
and returned an access token, `none` when it rejected them or the call
errored.  On success the token field is assigned; the catch branch only
logs and invokes the error callback — the token field is left exactly as it
was.  Returns the new state and the boolean result. -/
def authenticate (s : SvcState) (loginResult : Option String) :
    SvcState × Bool :=
  match loginResult with
  | some tok => ({ s with accessToken := some tok }, true)
  | none => (s, false)

/-- `syncData()` (source lines 144-173).  It throws only when no access
token is present; otherwise the three per-kind syncs each catch their own
errors internally and return status objects, so the method reaches the
completion callback and then sets `retryCount = 0`.  Returns the new state,
the observable effects, and whether the call completed (false = threw). -/
def syncData (s : SvcState) : SvcState × List Effect × Bool :=
  match s.accessToken with
  | none => (s, [], false)
  | some _ => ({ s with retryCount := 0 }, [Effect.syncPass], true)

/-- The catch branch of `checkConnectionAndSync()` (source lines 116-141).
`respStatus` is `error.response?.status` (`none` for a transport failure).
Only a literal 401 takes the re-authentication branch; every other caught
error sets `isOnline = false` and either schedules a backoff retry
(incrementing `retryCount` first, so the delay uses the incremented count)
or reports that max retries were reached. -/
def handleProbeError (cfg : SvcConfig) (s : SvcState)
    (respStatus : Option Nat) (loginResult : Option String) :
    SvcState × List Effect :=
  if respStatus = some 401 then
    let auth := authenticate s loginResult
    if auth.2 then
      let sync := syncData auth.1
      (sync.1, Effect.authAttempt :: sync.2.1)
    else (auth.1, [Effect.authAttempt])
  else
    let s1 := { s with isOnline := false }
    if s1.retryCount < cfg.maxRetries then
      let s2 := { s1 with retryCount := s1.retryCount + 1 }
      let d := getRetryDelay cfg s2.retryCount
      ({ s2 with pendingBackoff := s2.pendingBackoff ++ [d] },
       [Effect.backoffScheduled d])
    else (s1, [Effect.maxRetriesReported])

/-- `checkConnectionAndSync()` (source lines 101-143).  Axios resolves the
health GET only for a 2xx status and throws otherwise (carrying
`error.response.status`), and throws without a response on transport
failure.  The try body then runs `syncData` only when the status is
exactly 200 (after setting `isOnline = true` and `retryCount = 0`); a 2xx
status other than 200 falls through with no action. -/
def checkConnectionAndSync (cfg : SvcConfig) (s : SvcState)
    (probe : ProbeOutcome) (loginResult : Option String) :
    SvcState × List Effect :=
  match probe with
  | ProbeOutcome.response st =>
    if 200 ≤ st ∧ st < 300 then
      if st = 200 then
        let s1 := { s with isOnline := true, retryCount := 0 }
        let sync := syncData s1
        (sync.1, sync.2.1)
      else (s, [])
    else handleProbeError cfg s (some st) loginResult
  | ProbeOutcome.transportFailure => handleProbeError cfg s none loginResult

/-- `stop()` (source lines 90-99): clears the interval timer (the only
timer handle the service retains), nulls the token, and resets the online
flag and retry count.  It holds no reference to any backoff `setTimeout`,
so the environment's pending backoff callbacks are untouched. -/
def stop (s : SvcState) : SvcState :=
  { s with intervalArmed := false, accessToken := none, isOnline := false,
           retryCount := 0 }

end AuthSyncService

/-! ## Client-side per-kind pipeline (`syncNotices` and `readLocalFile`) -/

/-- A loosely-typed local snapshot record: its JSON fields in order. -/
abbrev LocalRecord := List (String × String)

/-- The rest-destructuring `const (id, _id, ...rest) = record` of source
lines 186-189 (and 231-234, 299-302): a fresh object with exactly the
`id` and `_id` fields removed. -/
def stripLocalIds (r : LocalRecord) : LocalRecord :=
  r.filter (fun f => f.1 ≠ "id" && f.1 ≠ "_id")

/-- `const transformedRecords = records.map(...)`: builds the request body
from the snapshot.  Both the rest-destructure and `Array.map` allocate new
values, so the snapshot binding is unchanged afterwards; the pair returns
(request body, snapshot after the transformation). -/
def buildPayload (records : List LocalRecord) :
    List LocalRecord × List LocalRecord :=
  (records.map stripLocalIds, records)

/-- What the filesystem delivered for one local snapshot file:
the file is absent (`fs.readFile` rejects with code ENOENT), reading or
`JSON.parse` failed with some other error, or it parsed to an object whose
field for the requested kind is `some records` (or absent: `none`). -/
inductive RawFile where
  | absent
  | unreadable (msg : String)
  | parsed (records : Option (List LocalRecord))
deriving Repr, DecidableEq

/-- `readLocalFile()` (source lines 269-286): an ENOENT error is answered
with an empty-collections object (so the kind's field reads as an empty
array); any other read or parse error is re-thrown; otherwise the parsed
data is returned. -/
def readLocalFile : RawFile → Except String (Option (List LocalRecord))
  | RawFile.absent => Except.ok (some [])
  | RawFile.unreadable msg => Except.error msg
  | RawFile.parsed records => Except.ok records

/-- Whether the sync-local POST for a kind reached the server and came back
with a 2xx response, or failed at transport level with an error message. -/
inductive Transport where
  | up
  | down (msg : String)
deriving Repr, DecidableEq

/-- The value `syncNotices()` (and its reports/media twins) returns for one
kind: the early `status: 'skipped'` object when there is nothing to sync,
`status: 'success'` when the POST succeeded, or `status: 'error'` from the
surrounding catch. -/
inductive KindOutcome where
  | skippedAll (message : String)
  | success
  | error (msg : String)
deriving Repr, DecidableEq

/-- `syncNotices()` (source lines 175-216).  Reads the local snapshot
(a throw from `readLocalFile` is caught by the surrounding catch and
becomes a `status: 'error'` result), defaults a missing field to `[]`,
returns the skipped-entirely object for an empty sequence, and otherwise
posts the id-stripped records.  The second component is the request body
that was built for submission (`[]` when the pipeline returned before
building one).  A non-empty batch is answered 200 by the route, so a
reachable server yields `status: 'success'`; a transport failure is caught
and yields `status: 'error'`. -/
def syncNotices (file : RawFile) (net : Transport) :
    KindOutcome × List LocalRecord :=
  match readLocalFile file with
  | Except.error msg => (KindOutcome.error msg, [])
  | Except.ok data =>
    let notices := data.getD []
    if notices.length = 0 then
      (KindOutcome.skippedAll "No local notices to sync", [])
    else
      let payload := (buildPayload notices).1
      match net with
      | Transport.up => (KindOutcome.success, payload)
      | Transport.down msg => (KindOutcome.error msg, payload)

/-! ## General lemmas about the sync-local handler loop -/

theorem runSync_append {ρ κ : Type} [DecidableEq κ] (cfg : SyncCfg ρ κ)
    (st : Store ρ) (l1 l2 : List ρ) :
    runSync cfg st (l1 ++ l2) =
      ((runSync cfg (runSync cfg st l1).1 l2).1,
       ⟨(runSync cfg st l1).2.success ++
          (runSync cfg (runSync cfg st l1).1 l2).2.success,
        (runSync cfg st l1).2.failed ++
          (runSync cfg (runSync cfg st l1).1 l2).2.failed⟩) := by
  induction l1 generalizing st with
  | nil => simp [runSync]
  | cons r rest ih =>
    simp only [List.cons_append, runSync]
    cases h : (syncStep cfg st r).2 with
    | inl s => simp [h, ih]
    | inr f => simp [h, ih]

theorem runSync_length {ρ κ : Type} [DecidableEq κ] (cfg : SyncCfg ρ κ)
    (st : Store ρ) (batch : List ρ) :
    (runSync cfg st batch).2.success.length +
      (runSync cfg st batch).2.failed.length = batch.length := by
  induction batch generalizing st with
  | nil => simp [runSync]
  | cons r rest ih =>
    simp only [runSync]
    cases h : (syncStep cfg st r).2 with
    | inl s => simp only []; simp [h]; have := ih (syncStep cfg st r).1; omega
    | inr f => simp only []; simp [h]; have := ih (syncStep cfg st r).1; omega

theorem syncStep_inl_status {ρ κ : Type} [DecidableEq κ] (cfg : SyncCfg ρ κ)
    (st : Store ρ) (r : ρ) (s : SuccessEntry)
    (h : (syncStep cfg st r).2 = Sum.inl s) :
    s.status = "created" ∨ s.status = "skipped" := by
  unfold syncStep at h
  cases hfo : findOne cfg st r with
  | some d => rw [hfo] at h; simp at h; right; rw [← h]
  | none =>
    rw [hfo] at h
    cases hv : cfg.validate r with
    | some err => rw [hv] at h; simp at h
    | none => rw [hv] at h; simp at h; left; rw [← h]

theorem runSync_success_status {ρ κ : Type} [DecidableEq κ]
    (cfg : SyncCfg ρ κ) (st : Store ρ) (batch : List ρ) (e : SuccessEntry)
    (he : e ∈ (runSync cfg st batch).2.success) :
    e.status = "created" ∨ e.status = "skipped" := by
  induction batch generalizing st with
  | nil => simp [runSync] at he
  | cons r rest ih =>
    simp only [runSync] at he
    cases h : (syncStep cfg st r).2 with
    | inl s =>
      rw [h] at he
      simp at he
      rcases he with he | he
      · exact he ▸ syncStep_inl_status cfg st r s h
      · exact ih (syncStep cfg st r).1 he
    | inr f =>
      rw [h] at he
      simp at he
      exact ih (syncStep cfg st r).1 he

theorem runSync_failed_nil {ρ κ : Type} [DecidableEq κ] (cfg : SyncCfg ρ κ)
    (st : Store ρ) (batch : List ρ)
    (hv : ∀ r ∈ batch, cfg.validate r = none) :
    (runSync cfg st batch).2.failed = [] := by
  induction batch generalizing st with
  | nil => simp [runSync]
  | cons r rest ih =>
    have hr : cfg.validate r = none := hv r (by simp)
    simp only [runSync]
    cases h : (syncStep cfg st r).2 with
    | inl s => simp [h]; exact ih _ (fun x hx => hv x (by simp [hx]))
    | inr f =>
      exfalso
      unfold syncStep at h
      cases hfo : findOne cfg st r with
      | some d => rw [hfo] at h; simp at h
      | none => rw [hfo, hr] at h; simp at h

theorem findOne_eq_none {ρ κ : Type} [DecidableEq κ] (cfg : SyncCfg ρ κ)
    (st : Store ρ) (r : ρ)
    (h : ∀ d ∈ st.docs, cfg.matchKey d.2 ≠ cfg.matchKey r) :
    findOne cfg st r = none := by
  unfold findOne
  apply List.find?_eq_none.mpr
  intro d hd
  simpa using h d hd

theorem runSync_all_created {ρ κ : Type} [DecidableEq κ] (cfg : SyncCfg ρ κ)
    (batch : List ρ) (st : Store ρ)
    (hv : ∀ r ∈ batch, cfg.validate r = none)
    (hfresh : ∀ r ∈ batch, ∀ d ∈ st.docs, cfg.matchKey d.2 ≠ cfg.matchKey r)
    (hnd : (batch.map cfg.matchKey).Nodup) :
    (∀ e ∈ (runSync cfg st batch).2.success, e.status = "created") ∧
    (runSync cfg st batch).2.failed = [] ∧
    (runSync cfg st batch).1.docs.map Prod.snd =
      st.docs.map Prod.snd ++ batch := by
  induction batch generalizing st with
  | nil => simp [runSync]
  | cons r rest ih =>
    have hr : cfg.validate r = none := hv r (by simp)
    have hfo : findOne cfg st r = none :=
      findOne_eq_none cfg st r (fun d hd => hfresh r (by simp) d hd)
    have hstep : syncStep cfg st r =
        (⟨st.docs ++ [(st.nextId, r)], st.nextId + 1⟩,
         Sum.inl ⟨st.nextId, "created", cfg.createdMsg⟩) := by
      unfold syncStep
      rw [hfo, hr]
    have hkey : cfg.matchKey r ∉ rest.map cfg.matchKey := by
      have := hnd
      simp only [List.map_cons, List.nodup_cons] at this
      exact this.1
    have hfresh' : ∀ x ∈ rest,
        ∀ d ∈ (st.docs ++ [(st.nextId, r)]),
          cfg.matchKey d.2 ≠ cfg.matchKey x := by
      intro x hx d hd
      rcases List.mem_append.mp hd with hd | hd
      · exact hfresh x (by simp [hx]) d hd
      · simp at hd
        subst hd
        intro hcontra
        exact hkey (hcontra ▸ List.mem_map_of_mem cfg.matchKey hx)
    have hnd' : (rest.map cfg.matchKey).Nodup := by
      simp only [List.map_cons, List.nodup_cons] at hnd
      exact hnd.2
    have hih := ih ⟨st.docs ++ [(st.nextId, r)], st.nextId + 1⟩
      (fun x hx => hv x (by simp [hx])) hfresh' hnd'
    simp only [runSync, hstep]
    refine ⟨?_, ?_, ?_⟩
    · intro e he
      simp at he
      rcases he with he | he
      · rw [he]
      · exact hih.1 e he
    · exact hih.2.1
    · rw [hih.2.2]
      simp

theorem runSync_all_skipped {ρ κ : Type} [DecidableEq κ] (cfg : SyncCfg ρ κ)
    (batch : List ρ) (st : Store ρ)
    (hmatch : ∀ r ∈ batch, ∃ d ∈ st.docs,
      cfg.matchKey d.2 = cfg.matchKey r) :
    (∀ e ∈ (runSync cfg st batch).2.success, e.status = "skipped") ∧
    (runSync cfg st batch).2.failed = [] ∧
    (runSync cfg st batch).1 = st := by
  induction batch with
  | nil => simp [runSync]
  | cons r rest ih =>
    have hfo : (findOne cfg st r).isSome := by
      unfold findOne
      apply List.find?_isSome.mpr
      obtain ⟨d, hd, hk⟩ := hmatch r (by simp)
      exact ⟨d, hd, by simpa using hk⟩
    obtain ⟨d, hd⟩ := Option.isSome_iff_exists.mp hfo
    have hstep : syncStep cfg st r =
        (st, Sum.inl ⟨d.1, "skipped", cfg.skippedMsg⟩) := by
      unfold syncStep
      rw [hd]
    have hih := ih (fun x hx => hmatch x (by simp [hx]))
    simp only [runSync, hstep]
    refine ⟨?_, hih.2.1, hih.2.2⟩
    intro e he
    simp at he
    rcases he with he | he
    · rw [he]
    · exact hih.1 e he

theorem runSync_docs_sub {ρ κ : Type} [DecidableEq κ] (cfg : SyncCfg ρ κ)
    (batch : List ρ) (st : Store ρ) (d : Nat × ρ)
    (hd : d ∈ (runSync cfg st batch).1.docs) :
    (∃ d0 ∈ st.docs, d.2 = d0.2) ∨ d.2 ∈ batch := by
  induction batch generalizing st with
  | nil =>
    simp [runSync] at hd
    exact Or.inl ⟨d, hd, rfl⟩
  | cons r rest ih =>
    have hmain : d ∈ (runSync cfg (syncStep cfg st r).1 rest).1.docs := by
      simp only [runSync] at hd
      cases h : (syncStep cfg st r).2 with
      | inl s => rw [h] at hd; exact hd
      | inr f => rw [h] at hd; exact hd
    rcases ih (syncStep cfg st r).1 hmain with ⟨d0, hd0, he⟩ | hmem
    · have hdocs : (syncStep cfg st r).1.docs = st.docs ∨
          (syncStep cfg st r).1.docs = st.docs ++ [(st.nextId, r)] := by
        unfold syncStep
        cases hfo : findOne cfg st r with
        | some x => left; rfl
        | none =>
          cases hv : cfg.validate r with
          | some err => left; rfl
          | none => right; rfl
      rcases hdocs with hdocs | hdocs
      · rw [hdocs] at hd0
        exact Or.inl ⟨d0, hd0, he⟩
      · rw [hdocs] at hd0
        rcases List.mem_append.mp hd0 with hd0 | hd0
        · exact Or.inl ⟨d0, hd0, he⟩
        · simp at hd0
          right
          simp [he, hd0]
    · right; simp [hmem]

/-! ## Claim theorems -/

/-- C3 (counterexample): the claim asserts that the delay at retryCount 0
equals the configured base delay as a consequence of the min formula, for
every configuration.  With `retryDelay` configured to 400000 ms, the
ceiling truncates already at retryCount 0: the delay is 300000, not the
base delay. -/
theorem c3_counterexample :
    AuthSyncService.getRetryDelay ⟨400000, 5, 30000⟩ 0 = 300000 ∧
    (300000 : Nat) ≠ 400000 := by
  constructor
  · rfl
  · decide

/-- C3 (amended): `getRetryDelay` equals `min(baseDelay * 2 ^ retryCount,
300000)`, is bounded by the 300000 ms ceiling and non-decreasing in the
retry count; it equals the base delay at retryCount 0 provided the base
delay does not exceed the ceiling (as the 60000 ms default does not). -/
theorem c3_backoff_formula (cfg : AuthSyncService.SvcConfig) (r : Nat) :
    AuthSyncService.getRetryDelay cfg r =
      min (cfg.retryDelay * 2 ^ r) 300000 ∧
    AuthSyncService.getRetryDelay cfg r ≤ 300000 ∧
    AuthSyncService.getRetryDelay cfg r ≤
      AuthSyncService.getRetryDelay cfg (r + 1) ∧
    (cfg.retryDelay ≤ 300000 →
      AuthSyncService.getRetryDelay cfg 0 = cfg.retryDelay) := by
  refine ⟨rfl, min_le_right _ _, ?_, ?_⟩
  · apply min_le_min ?_ le_rfl
    exact Nat.mul_le_mul_left _
      (Nat.pow_le_pow_right (by norm_num) (Nat.le_succ r))
  · intro h
    unfold AuthSyncService.getRetryDelay
    simp
    omega

/-- C3 (witness): at the default configuration the amended statement gives
the base delay at retryCount 0. -/
theorem c3_backoff_formula_witness :
    AuthSyncService.getRetryDelay ⟨60000, 5, 30000⟩ 0 = 60000 :=
  (c3_backoff_formula ⟨60000, 5, 30000⟩ 0).2.2.2 (by decide)

/-- C4: after a transport failure schedules a backoff retry, `stop()`
leaves that pending backoff callback in place — the source discards the
`setTimeout` handle, so the retry still fires after the stop.  This
evaluates the code at the failing input (one Unreachable probe from the
default-configured running service, then `stop()`). -/
theorem c4_stop_leaves_backoff_pending :
    (AuthSyncService.stop
      (AuthSyncService.checkConnectionAndSync ⟨60000, 5, 30000⟩
        ⟨some "tok", true, 0, true, []⟩
        AuthSyncService.ProbeOutcome.transportFailure none).1).pendingBackoff
      = [120000] ∧
    ([120000] : List Nat) ≠ [] := by
  constructor
  · rfl
  · decide

/-- C5: `authenticate()` does not clear the prior token before attempting;
when the login request fails, the stale prior token is still in place
afterwards, contradicting the fail-closed claim.  This evaluates the code
at the failing input (a service holding a prior token whose
re-authentication is rejected). -/
theorem c5_failed_auth_keeps_stale_token :
    (AuthSyncService.authenticate
      ⟨some "stale-token", true, 0, true, []⟩ none).1.accessToken
      = some "stale-token" ∧
    (AuthSyncService.authenticate
      ⟨some "stale-token", true, 0, true, []⟩ none).2 = false := by
  exact ⟨rfl, rfl⟩

/-- C6: the connectivity check treats a 403 health response as Unreachable,
not AuthExpired: the catch branch tests `error.response?.status === 401`
only, so a 403 — which this repository's own token middleware returns for
an invalid or expired token — schedules a backoff retry and never attempts
re-authentication, even when re-authentication would succeed.  This
evaluates the code at the failing input (a 403 probe response). -/
theorem c6_forbidden_takes_backoff_path :
    (AuthSyncService.checkConnectionAndSync ⟨60000, 5, 30000⟩
      ⟨some "expired", true, 0, true, []⟩
      (AuthSyncService.ProbeOutcome.response 403) (some "fresh")).2
      = [AuthSyncService.Effect.backoffScheduled 120000] ∧
    AuthSyncService.Effect.authAttempt ∉
      (AuthSyncService.checkConnectionAndSync ⟨60000, 5, 30000⟩
        ⟨some "expired", true, 0, true, []⟩
        (AuthSyncService.ProbeOutcome.response 403) (some "fresh")).2 := by
  constructor
  · rfl
  · decide

/-- C7 (counterexample): the claim asserts retryCount is unchanged by the
AuthExpired path; starting from retryCount 3, a 401 probe followed by a
successful re-authentication and sync pass leaves retryCount 0, because
`syncData()` resets it on completion. -/
theorem c7_counterexample :
    (AuthSyncService.checkConnectionAndSync ⟨60000, 5, 30000⟩
      ⟨some "old", false, 3, true, []⟩
      (AuthSyncService.ProbeOutcome.response 401) (some "new")).1.retryCount
      = 0 ∧
    (0 : Nat) ≠ 3 := by
  constructor
  · rfl
  · decide

/-- C7 (amended): a 401-classified probe makes exactly one
re-authentication attempt; on its success exactly one sync pass follows
immediately (no backoff is scheduled) and the completed sync pass leaves
retryCount at 0 — so retryCount is unchanged only when it was already 0;
when re-authentication fails, the state (retryCount included) is left
exactly as it was and no sync pass runs. -/
theorem c7_auth_expired_recovery (cfg : AuthSyncService.SvcConfig)
    (s : AuthSyncService.SvcState) (tok : String) :
    (AuthSyncService.checkConnectionAndSync cfg s
        (AuthSyncService.ProbeOutcome.response 401) (some tok)).2
      = [AuthSyncService.Effect.authAttempt,
         AuthSyncService.Effect.syncPass] ∧
    (AuthSyncService.checkConnectionAndSync cfg s
        (AuthSyncService.ProbeOutcome.response 401) (some tok)).1.retryCount
      = 0 ∧
    (AuthSyncService.checkConnectionAndSync cfg s
        (AuthSyncService.ProbeOutcome.response 401) (some tok)).1.accessToken
      = some tok ∧
    AuthSyncService.checkConnectionAndSync cfg s
        (AuthSyncService.ProbeOutcome.response 401) none
      = (s, [AuthSyncService.Effect.authAttempt]) := by
  refine ⟨?_, ?_, ?_, ?_⟩ <;>
    simp [AuthSyncService.checkConnectionAndSync,
      AuthSyncService.handleProbeError, AuthSyncService.authenticate,
      AuthSyncService.syncData]

/-- C8 (counterexample): the claim asserts an unreadable snapshot is
treated as empty and never yields an error outcome; `readLocalFile`
re-throws every non-ENOENT error, so an unreadable snapshot (e.g. a
permission error) makes the pipeline return the error outcome, not the
skipped one. -/
theorem c8_counterexample :
    syncNotices (RawFile.unreadable "EACCES: permission denied")
        Transport.up =
      (KindOutcome.error "EACCES: permission denied", []) ∧
    KindOutcome.error "EACCES: permission denied" ≠
      KindOutcome.skippedAll "No local notices to sync" := by
  constructor
  · rfl
  · decide

/-- C8 (amended): a missing snapshot file (ENOENT), a snapshot without the
kind's field, and an empty record sequence all yield the skipped-entirely
outcome with nothing submitted; an unreadable snapshot (any non-ENOENT read
or parse error) instead yields the error outcome for that kind. -/
theorem c8_missing_snapshot_skipped (net : Transport) (msg : String) :
    syncNotices RawFile.absent net =
      (KindOutcome.skippedAll "No local notices to sync", []) ∧
    syncNotices (RawFile.parsed none) net =
      (KindOutcome.skippedAll "No local notices to sync", []) ∧
    syncNotices (RawFile.parsed (some [])) net =
      (KindOutcome.skippedAll "No local notices to sync", []) ∧
    syncNotices (RawFile.unreadable msg) net = (KindOutcome.error msg, []) :=
  ⟨rfl, rfl, rfl, rfl⟩

/-! ### Lookup lemmas for the identity-stripping transform -/

theorem lookup_filter_keys_pres (p : String → Bool) (k : String)
    (hk : p k = true) (r : LocalRecord) :
    (r.filter (fun f => p f.1)).lookup k = r.lookup k := by
  induction r with
  | nil => rfl
  | cons f rest ih =>
    rcases f with ⟨fk, fv⟩
    by_cases hp : p fk = true
    · simp [List.filter_cons, hp, List.lookup_cons, ih]
    · have hkne : k ≠ fk := fun h => hp (h ▸ hk)
      have hne : (k == fk) = false := beq_eq_false_iff_ne.mpr hkne
      simp [List.filter_cons, hp, List.lookup_cons, ih, hne]

theorem lookup_filter_keys_none (p : String → Bool) (k : String)
    (hk : p k = false) (r : LocalRecord) :
    (r.filter (fun f => p f.1)).lookup k = none := by
  induction r with
  | nil => rfl
  | cons f rest ih =>
    rcases f with ⟨fk, fv⟩
    by_cases hp : p fk = true
    · have hkne : k ≠ fk := fun h => by rw [h, hp] at hk; exact absurd hk (by decide)
      have hne : (k == fk) = false := beq_eq_false_iff_ne.mpr hkne
      simp [List.filter_cons, hp, List.lookup_cons, ih, hne]
    · simp [List.filter_cons, hp, ih]

/-- C9: the payload built for the sync-local POST is the snapshot with
exactly the local identity fields `id` and `_id` removed from every record
— looking up `id` or `_id` in a transmitted record gives nothing, and every
other field reads exactly as in the original — and building it leaves the
snapshot unchanged (the rest-destructure and map are non-mutating). -/
theorem c9_identity_fields_stripped (records : List LocalRecord)
    (r : LocalRecord) (hr : r ∈ records) :
    (stripLocalIds r).lookup "id" = none ∧
    (stripLocalIds r).lookup "_id" = none ∧
    (∀ k, k ≠ "id" → k ≠ "_id" →
      (stripLocalIds r).lookup k = r.lookup k) ∧
    (buildPayload records).1 = records.map stripLocalIds ∧
    (buildPayload records).2 = records := by
  refine ⟨?_, ?_, ?_, rfl, rfl⟩
  · exact lookup_filter_keys_none
      (fun s => decide (s ≠ "id") && decide (s ≠ "_id")) "id" (by decide) r
  · exact lookup_filter_keys_none
      (fun s => decide (s ≠ "id") && decide (s ≠ "_id")) "_id" (by decide) r
  · intro k h1 h2
    have hk : (decide (k ≠ "id") && decide (k ≠ "_id")) = true := by
      rw [Bool.and_eq_true, decide_eq_true_eq, decide_eq_true_eq]
      exact ⟨h1, h2⟩
    exact lookup_filter_keys_pres
      (fun s => decide (s ≠ "id") && decide (s ≠ "_id")) k hk r

/-- C9 (witness): a concrete record carrying `id`, `_id`, and a `title`
field keeps its `title` and loses both identity fields. -/
theorem c9_witness :
    (stripLocalIds
        [("id", "1"), ("_id", "2"), ("title", "Annual Day")]).lookup "id"
      = none ∧
    (stripLocalIds
        [("id", "1"), ("_id", "2"), ("title", "Annual Day")]).lookup "_id"
      = none ∧
    (stripLocalIds
        [("id", "1"), ("_id", "2"), ("title", "Annual Day")]).lookup "title"
      = some "Annual Day" := by
  have h := c9_identity_fields_stripped
    [[("id", "1"), ("_id", "2"), ("title", "Annual Day")]]
    [("id", "1"), ("_id", "2"), ("title", "Annual Day")] (by simp)
  refine ⟨h.1, h.2.1, ?_⟩
  rw [h.2.2.1 "title" (by decide) (by decide)]
  rfl

theorem filter_status_split (l : List SuccessEntry)
    (h : ∀ e ∈ l, e.status = "created" ∨ e.status = "skipped") :
    (l.filter (fun e => e.status == "created")).length +
      (l.filter (fun e => e.status == "skipped")).length = l.length := by
  induction l with
  | nil => rfl
  | cons e rest ih =>
    have hrest := ih (fun x hx => h x (by simp [hx]))
    rcases h e (by simp) with he | he <;>
      simp [List.filter_cons, he] <;> omega

/-- C10: for every non-empty sync-local batch the response is the 200
envelope and its summary is conservative — each submitted record
contributes exactly one success or failed entry, so created + skipped +
failed = total and total is the number of submitted records. -/
theorem c10_summary_conservation {ρ κ : Type} [DecidableEq κ]
    (cfg : SyncCfg ρ κ) (st : Store ρ) (batch : List ρ)
    (hb : batch ≠ []) :
    (summaryOf (syncLocalRoute cfg st batch).2).isSome = true ∧
    ∀ summ, summaryOf (syncLocalRoute cfg st batch).2 = some summ →
      summ.created + summ.skipped + summ.failed = summ.total ∧
      summ.total = batch.length := by
  have hlen : ¬ batch.length = 0 := by
    simp only [List.length_eq_zero]
    exact hb
  have hroute : (syncLocalRoute cfg st batch).2 =
      SyncResponse.ok (runSync cfg st batch).2.success
        (runSync cfg st batch).2.failed
        (mkSummary batch.length (runSync cfg st batch).2) := by
    simp [syncLocalRoute, hlen]
  rw [hroute]
  refine ⟨rfl, ?_⟩
  intro summ hsumm
  simp only [summaryOf, Option.some_inj] at hsumm
  subst hsumm
  have hsplit := filter_status_split (runSync cfg st batch).2.success
    (fun e he => runSync_success_status cfg st batch e he)
  have hlen2 := runSync_length cfg st batch
  unfold mkSummary
  constructor
  · simp only []
    omega
  · rfl

/-- C10 (witness): a singleton valid batch against the empty store yields a
200 response with a summary. -/
theorem c10_witness :
    (summaryOf (syncLocalRoute noticesCfg ⟨[], 0⟩ [sampleNotice]).2).isSome
      = true ∧
    Summary.created ⟨1, 1, 0, 0⟩ + Summary.skipped ⟨1, 1, 0, 0⟩ +
      Summary.failed ⟨1, 1, 0, 0⟩ = Summary.total ⟨1, 1, 0, 0⟩ := by
  have h := c10_summary_conservation noticesCfg ⟨[], 0⟩ [sampleNotice]
    (by decide)
  exact ⟨h.1, (h.2 ⟨1, 1, 0, 0⟩ (by decide)).1⟩

/-- C2: in a batch where exactly one record fails remote
construction/validation (it matches nothing already stored and nothing
created from the records before it, and its validation rejects it) and
every other record is valid, the response has exactly one failed entry —
carrying that record's title and the validation reason — and exactly
batch-length-minus-one success entries: the loop continues past the bad
record and processes every remaining one. -/
theorem c2_partial_failure_isolation {ρ κ : Type} [DecidableEq κ]
    (cfg : SyncCfg ρ κ) (st : Store ρ) (pre post : List ρ) (bad : ρ)
    (err : String)
    (hvpre : ∀ r ∈ pre, cfg.validate r = none)
    (hvpost : ∀ r ∈ post, cfg.validate r = none)
    (hbad : cfg.validate bad = some err)
    (hstore : ∀ d ∈ st.docs, cfg.matchKey d.2 ≠ cfg.matchKey bad)
    (hpre : cfg.matchKey bad ∉ pre.map cfg.matchKey) :
    (runSync cfg st (pre ++ bad :: post)).2.failed =
      [⟨cfg.titleOf bad, err⟩] ∧
    (runSync cfg st (pre ++ bad :: post)).2.success.length =
      pre.length + post.length := by
  rw [runSync_append cfg st pre (bad :: post)]
  have hfail1 : (runSync cfg st pre).2.failed = [] :=
    runSync_failed_nil cfg st pre hvpre
  have hsucc1 : (runSync cfg st pre).2.success.length = pre.length := by
    have := runSync_length cfg st pre
    rw [hfail1] at this
    simpa using this
  have hfo : findOne cfg (runSync cfg st pre).1 bad = none := by
    apply findOne_eq_none
    intro d hd
    rcases runSync_docs_sub cfg pre st d hd with ⟨d0, hd0, he⟩ | hmem
    · rw [he]
      exact hstore d0 hd0
    · intro hcontra
      exact hpre (hcontra ▸ List.mem_map_of_mem cfg.matchKey hmem)
  have hstep : syncStep cfg (runSync cfg st pre).1 bad =
      ((runSync cfg st pre).1, Sum.inr ⟨cfg.titleOf bad, err⟩) := by
    unfold syncStep
    rw [hfo, hbad]
  have hfail3 : (runSync cfg (runSync cfg st pre).1 post).2.failed = [] :=
    runSync_failed_nil cfg (runSync cfg st pre).1 post hvpost
  have hsucc3 :
      (runSync cfg (runSync cfg st pre).1 post).2.success.length =
        post.length := by
    have := runSync_length cfg (runSync cfg st pre).1 post
    rw [hfail3] at this
    simpa using this
  have htail : runSync cfg (runSync cfg st pre).1 (bad :: post) =
      ((runSync cfg (runSync cfg st pre).1 post).1,
       ⟨(runSync cfg (runSync cfg st pre).1 post).2.success,
        ⟨cfg.titleOf bad, err⟩ ::
          (runSync cfg (runSync cfg st pre).1 post).2.failed⟩) := by
    simp only [runSync, hstep]
  rw [htail]
  constructor
  · simp [hfail1, hfail3]
  · simp [hsucc1, hsucc3]

/-- C2 (witness): a three-record batch whose middle record has a status
outside the schema enum yields two success entries and exactly one failed
entry naming that record and the validation reason. -/
theorem c2_witness :
    (runSync noticesCfg ⟨[], 0⟩
        [sampleNotice, badNotice, sampleNotice2]).2.failed =
      [⟨"Broken Notice",
        "Notice validation failed: status is not a valid enum value"⟩] ∧
    (runSync noticesCfg ⟨[], 0⟩
        [sampleNotice, badNotice, sampleNotice2]).2.success.length = 2 :=
  c2_partial_failure_isolation noticesCfg ⟨[], 0⟩ [sampleNotice]
    [sampleNotice2] badNotice
    "Notice validation failed: status is not a valid enum value"
    (by decide) (by decide) (by decide) (by decide) (by decide)

/-- C1 (counterexample): the claim fails on the code in three ways.
For N = 0 the handler returns a 404 error envelope with no summary at all
(the claim demands a summary with created = 0).  For a batch of two records
sharing a MatchKey against an empty store, the first call reports
created = 1 and skipped = 1 (the claim demands created = 2, skipped = 0),
because the first record's save is visible to the second record's
duplicate check.  For a batch holding one invalid record, the first call
reports created = 0 with one failure (the claim demands created = 1). -/
theorem c1_counterexample :
    summaryOf (syncLocalRoute noticesCfg ⟨[], 0⟩ ([] : List NoticeRec)).2
      = none ∧
    summaryOf
        (syncLocalRoute noticesCfg ⟨[], 0⟩ [sampleNotice, sampleNotice]).2
      = some ⟨2, 1, 1, 0⟩ ∧
    summaryOf (syncLocalRoute noticesCfg ⟨[], 0⟩ [badNotice]).2
      = some ⟨1, 0, 0, 1⟩ := by
  refine ⟨rfl, ?_, ?_⟩ <;> rfl

/-- C1 (amended): for every entity kind and every non-empty batch of valid
records with pairwise-distinct MatchKeys, none of which matches a record
already in the remote store, the first sync-local call reports
created = N, skipped = 0, failed = 0, and repeating the identical request
against the resulting store reports created = 0, skipped = N, failed = 0
(total = N in both). -/
theorem c1_idempotent_sync {ρ κ : Type} [DecidableEq κ] (cfg : SyncCfg ρ κ)
    (st : Store ρ) (batch : List ρ)
    (hne : batch ≠ [])
    (hv : ∀ r ∈ batch, cfg.validate r = none)
    (hnd : (batch.map cfg.matchKey).Nodup)
    (hfresh : ∀ r ∈ batch, ∀ d ∈ st.docs,
      cfg.matchKey d.2 ≠ cfg.matchKey r) :
    summaryOf (syncLocalRoute cfg st batch).2 =
      some ⟨batch.length, batch.length, 0, 0⟩ ∧
    summaryOf (syncLocalRoute cfg (syncLocalRoute cfg st batch).1 batch).2 =
      some ⟨batch.length, 0, batch.length, 0⟩ := by
  have hlen : ¬ batch.length = 0 := by
    simp only [List.length_eq_zero]
    exact hne
  have h1 := runSync_all_created cfg batch st hv hfresh hnd
  have hroute1 : syncLocalRoute cfg st batch =
      ((runSync cfg st batch).1,
       SyncResponse.ok (runSync cfg st batch).2.success
         (runSync cfg st batch).2.failed
         (mkSummary batch.length (runSync cfg st batch).2)) := by
    simp [syncLocalRoute, hlen]
  have hsucc1len :
      (runSync cfg st batch).2.success.length = batch.length := by
    have := runSync_length cfg st batch
    rw [h1.2.1] at this
    simpa using this
  have hcflt : ((runSync cfg st batch).2.success.filter
      (fun e => e.status == "created")) =
      (runSync cfg st batch).2.success := by
    apply List.filter_eq_self.mpr
    intro e he
    rw [h1.1 e he]
    decide
  have hsflt : ((runSync cfg st batch).2.success.filter
      (fun e => e.status == "skipped")) = [] := by
    apply List.filter_eq_nil_iff.mpr
    intro e he
    rw [h1.1 e he]
    decide
  have hmatch : ∀ r ∈ batch, ∃ d ∈ (runSync cfg st batch).1.docs,
      cfg.matchKey d.2 = cfg.matchKey r := by
    intro r hrb
    have hmem : r ∈ (runSync cfg st batch).1.docs.map Prod.snd := by
      rw [h1.2.2]
      exact List.mem_append.mpr (Or.inr hrb)
    obtain ⟨d, hd, he⟩ := List.mem_map.mp hmem
    exact ⟨d, hd, by rw [he]⟩
  have h2 := runSync_all_skipped cfg batch (runSync cfg st batch).1 hmatch
  have hroute2 : syncLocalRoute cfg (runSync cfg st batch).1 batch =
      ((runSync cfg (runSync cfg st batch).1 batch).1,
       SyncResponse.ok (runSync cfg (runSync cfg st batch).1 batch).2.success
         (runSync cfg (runSync cfg st batch).1 batch).2.failed
         (mkSummary batch.length
           (runSync cfg (runSync cfg st batch).1 batch).2)) := by
    simp [syncLocalRoute, hlen]
  have hsucc2len :
      (runSync cfg (runSync cfg st batch).1 batch).2.success.length =
        batch.length := by
    have := runSync_length cfg (runSync cfg st batch).1 batch
    rw [h2.2.1] at this
    simpa using this
  have hcflt2 : ((runSync cfg (runSync cfg st batch).1 batch).2.success.filter
      (fun e => e.status == "created")) = [] := by
    apply List.filter_eq_nil_iff.mpr
    intro e he
    rw [h2.1 e he]
    decide
  have hsflt2 : ((runSync cfg (runSync cfg st batch).1 batch).2.success.filter
      (fun e => e.status == "skipped")) =
      (runSync cfg (runSync cfg st batch).1 batch).2.success := by
    apply List.filter_eq_self.mpr
    intro e he
    rw [h2.1 e he]
    decide
  constructor
  · rw [hroute1]
    simp only [summaryOf, mkSummary, Option.some_inj]
    rw [hcflt, hsflt, h1.2.1, hsucc1len]
    rfl
  · rw [hroute1]
    simp only []
    rw [hroute2]
    simp only [summaryOf, mkSummary, Option.some_inj]
    rw [hcflt2, hsflt2, h2.2.1, hsucc2len]
    rfl

/-- C1 (witness): two valid notices with distinct MatchKeys against the
empty store — the first call creates both, the identical second call skips
both. -/
theorem c1_witness :
    summaryOf
        (syncLocalRoute noticesCfg ⟨[], 0⟩ [sampleNotice, sampleNotice2]).2
      = some ⟨2, 2, 0, 0⟩ ∧
    summaryOf
        (syncLocalRoute noticesCfg
          (syncLocalRoute noticesCfg ⟨[], 0⟩
            [sampleNotice, sampleNotice2]).1
          [sampleNotice, sampleNotice2]).2
      = some ⟨2, 0, 2, 0⟩ :=
  c1_idempotent_sync noticesCfg ⟨[], 0⟩ [sampleNotice, sampleNotice2]
    (by decide) (by decide) (by decide) (by decide)
